import Mathlib

/-!
Shallow embedding of the appointment-scheduler backend (src/main.py) and
proofs about its appointment workflow: `create_appointment` and
`update_appointment_status`, together with the record store they act on.

Modelling conventions:
- The Supabase store is a `Store` value holding one list per table; a
  `select ... eq(field, v)` is a `List.filter`, an `insert` appends a row,
  an `update ... eq("id", v)` maps over the rows.  Store calls never fail
  in this model (the claims under study quantify over executions in which
  every store operation succeeds).
- Timestamps (`datetime`) are opaque integers; `isoformat` is an injective
  renaming, so the reminder `scheduled_time` is stored as the same integer.
- A handler returns `HResult α × Store`: the HTTP-level outcome together
  with the store state after the call.
- A FastAPI `HTTPException` raised inside a `try` block is caught by the
  handler `except Exception as e` clause, which re-raises
  `HTTPException(status_code=500, detail=str(e))`; `str` of a starlette
  `HTTPException` is the string "<status_code>: <detail>".  The embedding
  performs this wrapping exactly where the source does.
-/

namespace AppointmentScheduler

/-- FastAPI `HTTPException`: an HTTP status code and a detail message. -/
structure HTTPException where
  status_code : Nat
  detail : String
  deriving Repr, DecidableEq

/-- Outcome of a handler call: a successful JSON payload, or an HTTP error
response carrying the status code and detail of the outermost
`HTTPException` that escaped the handler. -/
inductive HResult (α : Type) where
  | ok : α → HResult α
  | err : Nat → String → HResult α
  deriving Repr, DecidableEq

/-- The call succeeded (no `HTTPException` escaped the handler). -/
def HResult.isOk {α : Type} : HResult α → Bool
  | .ok _ => true
  | .err _ _ => false

/-- The status code and detail of a failed call, `none` on success. -/
def HResult.errParts {α : Type} : HResult α → Option (Nat × String)
  | .ok _ => none
  | .err c d => some (c, d)

/-- A row of the `services` table.  `create_appointment` only tests such a
row for existence by `id`; of the remaining columns only `business_id`
(the owning tenant) matters to the properties studied here, so the other
payload columns (name, duration, price, ...) are omitted. -/
structure ServiceRec where
  id : String
  business_id : String
  deriving Repr, DecidableEq

/-- A row of the `clients` table (same conventions as `ServiceRec`). -/
structure ClientRec where
  id : String
  business_id : String
  deriving Repr, DecidableEq

/-- A row of the `staff` table (same conventions as `ServiceRec`). -/
structure StaffRec where
  id : String
  business_id : String
  deriving Repr, DecidableEq

/-- A row of the `appointments` table: the fields of the `Appointment`
pydantic model.  The store-maintained `created_at` and `updated_at`
timestamps are never read by the code and are omitted. -/
structure AppointmentRec where
  id : String
  business_id : String
  service_id : String
  client_id : String
  staff_id : Option String
  start_time : Int
  end_time : Int
  status : String
  notes : Option String
  deriving Repr, DecidableEq

/-- A row of the `appointment_reminders` table: exactly the keys of the
`reminder_data` dict built in `create_appointment`. -/
structure ReminderRec where
  appointment_id : String
  reminder_type : String
  scheduled_time : Int
  status : String
  deriving Repr, DecidableEq

/-- The record store: one list of rows per table touched by the
appointment workflow, plus the identifier the store will assign to the
next inserted appointment row (Supabase assigns ids server-side; the code
reads the assigned id back as `result.data[0]["id"]`). -/
structure Store where
  services : List ServiceRec
  clients : List ClientRec
  staff : List StaffRec
  appointments : List AppointmentRec
  appointment_reminders : List ReminderRec
  next_id : String
  deriving Repr, DecidableEq

/-- The `AppointmentCreate` pydantic model after request parsing: all
defaults already applied (`status` defaults to "scheduled" at parse
time, see `parse_appointment_create`). -/
structure AppointmentCreate where
  service_id : String
  client_id : String
  staff_id : Option String
  start_time : Int
  end_time : Int
  status : String
  notes : Option String
  deriving Repr, DecidableEq

/-- A raw request body for `POST /appointments/`: `status` and the other
optional fields may be omitted (`none`). -/
structure AppointmentCreateBody where
  service_id : String
  client_id : String
  staff_id : Option String
  start_time : Int
  end_time : Int
  status : Option String
  notes : Option String
  deriving Repr, DecidableEq

/-- `str(e)` for a starlette `HTTPException e`: "<status_code>: <detail>". -/
def strOfHTTPException (e : HTTPException) : String :=
  toString e.status_code ++ ": " ++ e.detail

/-- Pydantic parsing of a request body into `AppointmentCreate`: the only
field with a default in `AppointmentBase` is `status: str = "scheduled"`. -/
def parse_appointment_create (b : AppointmentCreateBody) : AppointmentCreate :=
  { service_id := b.service_id
    client_id := b.client_id
    staff_id := b.staff_id
    start_time := b.start_time
    end_time := b.end_time
    status := b.status.getD "scheduled"
    notes := b.notes }

/-- The tail of `create_appointment` (after the three existence checks):
build `appointment_data` with `business_id` taken from the dependency
context, insert it into `appointments`, then insert the reminder row into
`appointment_reminders`, and return the inserted appointment row. -/
def insert_appointment_with_reminder (appointment : AppointmentCreate)
    (business_id : String) (st : Store) : HResult AppointmentRec × Store :=
  let newAppointment : AppointmentRec :=
    { id := st.next_id
      business_id := business_id
      service_id := appointment.service_id
      client_id := appointment.client_id
      staff_id := appointment.staff_id
      start_time := appointment.start_time
      end_time := appointment.end_time
      status := appointment.status
      notes := appointment.notes }
  let st1 := { st with appointments := st.appointments ++ [newAppointment] }
  let reminder : ReminderRec :=
    { appointment_id := newAppointment.id
      reminder_type := "email"
      scheduled_time := appointment.start_time
      status := "pending" }
  let st2 := { st1 with appointment_reminders := st1.appointment_reminders ++ [reminder] }
  (.ok newAppointment, st2)

/-- `POST /appointments/` handler (`create_appointment` in src/main.py).
The three existence checks raise `HTTPException(404, ...)` inside the
`try` block, so the surrounding `except Exception` converts each of them
into a 500 response whose detail is `str` of the caught exception.  The
staff check runs under Python truthiness (`if appointment.staff_id:`), so
it is skipped both when `staff_id` is absent and when it is the empty
string. -/
def create_appointment (appointment : AppointmentCreate) (business_id : String)
    (st : Store) : HResult AppointmentRec × Store :=
  let service_result := st.services.filter (fun s => s.id == appointment.service_id)
  if service_result.isEmpty then
    (.err 500 (strOfHTTPException ⟨404, "Service not found"⟩), st)
  else
    let client_result := st.clients.filter (fun c => c.id == appointment.client_id)
    if client_result.isEmpty then
      (.err 500 (strOfHTTPException ⟨404, "Client not found"⟩), st)
    else
      match appointment.staff_id with
      | some sid =>
        if sid ≠ "" then
          let staff_result := st.staff.filter (fun s => s.id == sid)
          if staff_result.isEmpty then
            (.err 500 (strOfHTTPException ⟨404, "Staff not found"⟩), st)
          else
            insert_appointment_with_reminder appointment business_id st
        else
          insert_appointment_with_reminder appointment business_id st
      | none => insert_appointment_with_reminder appointment business_id st

/-- The five admissible appointment status values, in the order the code
lists them. -/
def valid_statuses : List String :=
  ["scheduled", "confirmed", "completed", "cancelled", "no-show"]

/-- `PUT /appointments/{id}/status` handler (`update_appointment_status`
in src/main.py).  The status validation happens before the `try` block,
so an invalid value yields a genuine 400 response with no store access;
the 404 for a missing appointment is raised inside the `try` block and is
therefore wrapped into a 500 by the `except Exception` clause.  The store
`update ... eq("id", id)` sets the status of every row whose id matches
and returns the affected rows. -/
def update_appointment_status (appointment_id : String) (status : String)
    (st : Store) : HResult AppointmentRec × Store :=
  if status ∉ valid_statuses then
    (.err 400 "Invalid status value", st)
  else
    let newAppointments := st.appointments.map
      (fun a => if a.id == appointment_id then { a with status := status } else a)
    let st1 := { st with appointments := newAppointments }
    match newAppointments.filter (fun a => a.id == appointment_id) with
    | [] => (.err 500 (strOfHTTPException ⟨404, "Appointment not found"⟩), st1)
    | r :: _ => (.ok r, st1)

/-- A small store used by the witnesses: one service, one client, one
staff member, no appointments yet. -/
def st0 : Store :=
  { services := [{ id := "s1", business_id := "b0" }]
    clients := [{ id := "c1", business_id := "b0" }]
    staff := [{ id := "w1", business_id := "b0" }]
    appointments := []
    appointment_reminders := []
    next_id := "a1" }

/-- A well-formed creation request against `st0`. -/
def a_ok : AppointmentCreate :=
  { service_id := "s1", client_id := "c1", staff_id := some "w1"
    start_time := 100, end_time := 130, status := "scheduled", notes := none }

/-- A creation request whose `service_id` matches no service in `st0`. -/
def a_no_service : AppointmentCreate :=
  { service_id := "missing-service", client_id := "c1", staff_id := some "w1"
    start_time := 100, end_time := 130, status := "scheduled", notes := none }

/-- A creation request whose `client_id` matches no client in `st0`. -/
def a_no_client : AppointmentCreate :=
  { service_id := "s1", client_id := "missing-client", staff_id := some "w1"
    start_time := 100, end_time := 130, status := "scheduled", notes := none }

/-- A creation request whose `staff_id` matches no staff row in `st0`. -/
def a_no_staff : AppointmentCreate :=
  { service_id := "s1", client_id := "c1", staff_id := some "missing-staff"
    start_time := 100, end_time := 130, status := "scheduled", notes := none }

/-- A creation request carrying a status value far outside the enumerated
set. -/
def a_odd_status : AppointmentCreate :=
  { service_id := "s1", client_id := "c1", staff_id := none
    start_time := 100, end_time := 130, status := "own-made-up-status", notes := none }

/-- A creation request whose end_time precedes its start_time. -/
def a_backwards : AppointmentCreate :=
  { service_id := "s1", client_id := "c1", staff_id := none
    start_time := 500, end_time := 200, status := "scheduled", notes := none }

/-- A stored appointment in state "completed", used by the update
witnesses. -/
def st_one_app : AppointmentRec :=
  { id := "a1", business_id := "b0", service_id := "s1", client_id := "c1"
    staff_id := none, start_time := 100, end_time := 130
    status := "completed", notes := some "bring forms" }

/-- A store holding `st_one_app` and its reminder. -/
def st_one : Store :=
  { services := [{ id := "s1", business_id := "b0" }]
    clients := [{ id := "c1", business_id := "b0" }]
    staff := [{ id := "w1", business_id := "b0" }]
    appointments := [st_one_app]
    appointment_reminders := [{ appointment_id := "a1", reminder_type := "email",
                                scheduled_time := 100, status := "pending" }]
    next_id := "a2" }

/-- A store in which every referenced row belongs to a business other
than the caller context "b0". -/
def st_cross : Store :=
  { services := [{ id := "s1", business_id := "another-business" }]
    clients := [{ id := "c1", business_id := "another-business" }]
    staff := [{ id := "w1", business_id := "another-business" }]
    appointments := []
    appointment_reminders := []
    next_id := "a1" }

/-- A list whose filter retains some element is not empty. -/
theorem filter_isEmpty_false_of_exists {α : Type} (p : α → Bool) (l : List α)
    (h : ∃ a ∈ l, p a = true) : (l.filter p).isEmpty = false := by
  obtain ⟨a, ha, hp⟩ := h
  have hmem : a ∈ l.filter p := List.mem_filter.mpr ⟨ha, hp⟩
  cases hf : l.filter p with
  | nil => rw [hf] at hmem; cases hmem
  | cons x xs => simp [List.isEmpty]

/-- When every existence check passes (phrased on the filters the code
runs), `create_appointment` reduces to its insertion tail. -/
theorem create_appointment_of_valid_refs
    (appointment : AppointmentCreate) (business_id : String) (st : Store)
    (hs : (st.services.filter (fun s => s.id == appointment.service_id)).isEmpty = false)
    (hc : (st.clients.filter (fun c => c.id == appointment.client_id)).isEmpty = false)
    (hst : ∀ sid, appointment.staff_id = some sid → sid ≠ "" →
      (st.staff.filter (fun s => s.id == sid)).isEmpty = false) :
    create_appointment appointment business_id st =
      insert_appointment_with_reminder appointment business_id st := by
  unfold create_appointment
  simp only [hs, Bool.false_eq_true, if_false, hc]
  cases hsid : appointment.staff_id with
  | none => rfl
  | some sid =>
    by_cases he : sid = ""
    · simp [he]
    · simp only [he, if_true, ne_eq, not_false_eq_true, if_pos]
      simp [hst sid hsid he]

/-- When the referenced service and client rows exist, and a row exists
for any supplied staff identifier, `create_appointment` reduces to its
insertion tail. -/
theorem create_appointment_of_existing_refs
    (appointment : AppointmentCreate) (business_id : String) (st : Store)
    (hs : ∃ s ∈ st.services, s.id = appointment.service_id)
    (hc : ∃ c ∈ st.clients, c.id = appointment.client_id)
    (hw : ∀ sid, appointment.staff_id = some sid → ∃ w ∈ st.staff, w.id = sid) :
    create_appointment appointment business_id st =
      insert_appointment_with_reminder appointment business_id st :=
  create_appointment_of_valid_refs appointment business_id st
    (filter_isEmpty_false_of_exists _ _ (by
      obtain ⟨s, hmem, hid⟩ := hs; exact ⟨s, hmem, by simpa using hid⟩))
    (filter_isEmpty_false_of_exists _ _ (by
      obtain ⟨c, hmem, hid⟩ := hc; exact ⟨c, hmem, by simpa using hid⟩))
    (fun sid hsid _ => filter_isEmpty_false_of_exists _ _ (by
      obtain ⟨w, hmem, hid⟩ := hw sid hsid; exact ⟨w, hmem, by simpa using hid⟩))

/-- Any row of the status-updated appointments list whose id matches the
target id carries the new status. -/
theorem status_of_mem_updated (appointment_id s : String) (l : List AppointmentRec)
    (a : AppointmentRec)
    (ha : a ∈ l.map (fun b => if b.id == appointment_id then { b with status := s } else b))
    (hid : a.id = appointment_id) : a.status = s := by
  obtain ⟨b, _, rfl⟩ := List.mem_map.mp ha
  by_cases h : b.id = appointment_id
  · simp [h]
  · simp [h] at hid

/-- `update_appointment_status` on a valid status, in the case where no
row matches the id: the wrapped 404 response, with the (vacuous) update
applied to the store. -/
theorem update_eq_of_filter_nil (appointment_id s : String) (st : Store)
    (hv : s ∈ valid_statuses)
    (hfil : (st.appointments.map
        (fun a => if a.id == appointment_id then { a with status := s } else a)).filter
        (fun a => a.id == appointment_id) = []) :
    update_appointment_status appointment_id s st =
      (.err 500 (strOfHTTPException ⟨404, "Appointment not found"⟩),
        { st with
            appointments :=
              st.appointments.map
                (fun a => if a.id == appointment_id then { a with status := s } else a) }) := by
  unfold update_appointment_status
  rw [if_neg (by simp [hv])]
  simp only [hfil]

/-- `update_appointment_status` on a valid status, in the case where some
row matches the id: the first affected row is returned and the update is
applied to the store. -/
theorem update_eq_of_filter_cons (appointment_id s : String) (st : Store)
    (r : AppointmentRec) (rest : List AppointmentRec)
    (hv : s ∈ valid_statuses)
    (hfil : (st.appointments.map
        (fun a => if a.id == appointment_id then { a with status := s } else a)).filter
        (fun a => a.id == appointment_id) = r :: rest) :
    update_appointment_status appointment_id s st =
      (.ok r,
        { st with
            appointments :=
              st.appointments.map
                (fun a => if a.id == appointment_id then { a with status := s } else a) }) := by
  unfold update_appointment_status
  rw [if_neg (by simp [hv])]
  simp only [hfil]

/-- For a valid status the post-state of `update_appointment_status` is
always the store with the row map applied, whether or not a row matched. -/
theorem update_snd_of_valid (appointment_id s : String) (st : Store)
    (hv : s ∈ valid_statuses) :
    (update_appointment_status appointment_id s st).2 =
      { st with
          appointments :=
            st.appointments.map
              (fun a => if a.id == appointment_id then { a with status := s } else a) } := by
  cases hfil : (st.appointments.map
      (fun a => if a.id == appointment_id then { a with status := s } else a)).filter
      (fun a => a.id == appointment_id) with
  | nil => rw [update_eq_of_filter_nil appointment_id s st hv hfil]
  | cons r rest => rw [update_eq_of_filter_cons appointment_id s st r rest hv hfil]

/-- Claim C1: when the referenced service and client exist and any
supplied staff_id resolves, `create_appointment` succeeds, the returned
appointment carries the business identifier of the caller context, and
exactly one reminder row is appended, referencing the new appointment id,
with reminder_type "email", status "pending" and scheduled_time equal to
the appointment start_time. -/
theorem C1_create_appointment_success
    (appointment : AppointmentCreate) (business_id : String) (st : Store)
    (hs : ∃ s ∈ st.services, s.id = appointment.service_id)
    (hc : ∃ c ∈ st.clients, c.id = appointment.client_id)
    (hw : ∀ sid, appointment.staff_id = some sid → ∃ w ∈ st.staff, w.id = sid) :
    ∃ r : AppointmentRec,
      (create_appointment appointment business_id st).1 = .ok r ∧
      r.business_id = business_id ∧
      (create_appointment appointment business_id st).2.appointment_reminders =
        st.appointment_reminders ++
          [{ appointment_id := r.id
             reminder_type := "email"
             scheduled_time := appointment.start_time
             status := "pending" }] := by
  rw [create_appointment_of_existing_refs appointment business_id st hs hc hw]
  exact ⟨_, rfl, rfl, rfl⟩

/-- Witness for C1 at a concrete store and input. -/
theorem C1_create_appointment_success_witness :
    (∃ s ∈ st0.services, s.id = a_ok.service_id) ∧
    (∃ c ∈ st0.clients, c.id = a_ok.client_id) ∧
    ∃ r : AppointmentRec,
      (create_appointment a_ok "b0" st0).1 = .ok r ∧
      r.business_id = "b0" ∧
      (create_appointment a_ok "b0" st0).2.appointment_reminders =
        st0.appointment_reminders ++
          [{ appointment_id := r.id
             reminder_type := "email"
             scheduled_time := a_ok.start_time
             status := "pending" }] :=
  ⟨by decide, by decide,
    C1_create_appointment_success a_ok "b0" st0 (by decide) (by decide)
      (fun sid hsid => by
        cases hsid
        exact ⟨{ id := "w1", business_id := "b0" }, by decide, rfl⟩)⟩

/-- Claim C2: contrary to the claim, an unresolvable service_id,
client_id, or supplied staff_id does NOT surface as HTTP 404: the
`HTTPException(404, ...)` is raised inside the `try` block and the
`except Exception` clause converts it into HTTP 500 whose detail embeds
the original message.  This theorem records the actual behavior at the
three failing inputs. -/
theorem C2_unresolved_reference_yields_500 :
    create_appointment a_no_service "b0" st0
      = (.err 500 "404: Service not found", st0) ∧
    create_appointment a_no_client "b0" st0
      = (.err 500 "404: Client not found", st0) ∧
    create_appointment a_no_staff "b0" st0
      = (.err 500 "404: Staff not found", st0) := by decide

/-- Claim C3: whenever `create_appointment` fails (which, store successes
assumed, happens exactly when one of the three existence validations
fails), the store is returned unchanged: nothing was inserted into
`appointments` or `appointment_reminders`. -/
theorem C3_failed_validation_leaves_store_unchanged
    (appointment : AppointmentCreate) (business_id : String) (st : Store)
    (h : (create_appointment appointment business_id st).1.isOk = false) :
    (create_appointment appointment business_id st).2 = st := by
  by_cases hs : (st.services.filter (fun s => s.id == appointment.service_id)).isEmpty = true
  · simp [create_appointment, hs]
  · simp only [Bool.not_eq_true] at hs
    by_cases hc : (st.clients.filter (fun c => c.id == appointment.client_id)).isEmpty = true
    · simp [create_appointment, hs, hc]
    · simp only [Bool.not_eq_true] at hc
      cases hsid : appointment.staff_id with
      | none =>
        exfalso
        simp [create_appointment, hs, hc, hsid,
          insert_appointment_with_reminder, HResult.isOk] at h
      | some sid =>
        by_cases he : sid = ""
        · exfalso
          simp [create_appointment, hs, hc, hsid, he,
            insert_appointment_with_reminder, HResult.isOk] at h
        · by_cases hwm : (st.staff.filter (fun s => s.id == sid)).isEmpty = true
          · simp [create_appointment, hs, hc, hsid, he, hwm]
          · exfalso
            simp only [Bool.not_eq_true] at hwm
            simp [create_appointment, hs, hc, hsid, he, hwm,
              insert_appointment_with_reminder, HResult.isOk] at h

/-- Witness for C3: a failing create leaves the concrete store `st0`
untouched. -/
theorem C3_failed_validation_leaves_store_unchanged_witness :
    (create_appointment a_no_service "b0" st0).1.isOk = false ∧
    (create_appointment a_no_service "b0" st0).2 = st0 :=
  ⟨by decide, C3_failed_validation_leaves_store_unchanged a_no_service "b0" st0 (by decide)⟩

/-- Claim C4: a status value outside the five enumerated ones is rejected
with HTTP 400 "Invalid status value" before the `try` block, hence before
any store access, and the store is returned unchanged. -/
theorem C4_invalid_status_rejected_without_store_access
    (appointment_id status : String) (st : Store)
    (h : status ∉ valid_statuses) :
    update_appointment_status appointment_id status st
      = (.err 400 "Invalid status value", st) := by
  unfold update_appointment_status
  rw [if_pos h]

/-- Witness for C4 at the status value "bogus". -/
theorem C4_invalid_status_rejected_without_store_access_witness :
    "bogus" ∉ valid_statuses ∧
    update_appointment_status "a1" "bogus" st0
      = (.err 400 "Invalid status value", st0) :=
  ⟨by decide, C4_invalid_status_rejected_without_store_access "a1" "bogus" st0 (by decide)⟩

/-- Claim C5: for a valid status value and an existing appointment id,
the update succeeds, the returned row carries the new status and the
target id, and every stored row with the target id carries the new
status; no constraint relates the new status to the previous one, so any
enumerated value is reachable from any other. -/
theorem C5_valid_status_update_succeeds
    (appointment_id s : String) (st : Store)
    (hv : s ∈ valid_statuses)
    (hex : ∃ a ∈ st.appointments, a.id = appointment_id) :
    ∃ r : AppointmentRec,
      (update_appointment_status appointment_id s st).1 = .ok r ∧
      r.status = s ∧ r.id = appointment_id ∧
      ∀ a ∈ (update_appointment_status appointment_id s st).2.appointments,
        a.id = appointment_id → a.status = s := by
  cases hfil : (st.appointments.map
      (fun a => if a.id == appointment_id then { a with status := s } else a)).filter
      (fun a => a.id == appointment_id) with
  | nil =>
    exfalso
    obtain ⟨a, ha, hid⟩ := hex
    have hmem : (if a.id == appointment_id then { a with status := s } else a) ∈
        (st.appointments.map
          (fun b => if b.id == appointment_id then { b with status := s } else b)).filter
          (fun b => b.id == appointment_id) := by
      refine List.mem_filter.mpr ⟨List.mem_map_of_mem _ ha, ?_⟩
      simp [hid]
    rw [hfil] at hmem
    cases hmem
  | cons r rest =>
    have heq := update_eq_of_filter_cons appointment_id s st r rest hv hfil
    have hrmem : r ∈ (st.appointments.map
        (fun b => if b.id == appointment_id then { b with status := s } else b)).filter
        (fun b => b.id == appointment_id) := by
      rw [hfil]; exact List.mem_cons_self r rest
    obtain ⟨hrmap, hrid⟩ := List.mem_filter.mp hrmem
    have hrid2 : r.id = appointment_id := by simpa using hrid
    rw [heq]
    refine ⟨r, rfl, status_of_mem_updated appointment_id s _ r hrmap hrid2, hrid2, ?_⟩
    intro a ha hid
    exact status_of_mem_updated appointment_id s _ a ha hid

/-- Witness for C5: a completed appointment is moved back to scheduled. -/
theorem C5_valid_status_update_succeeds_witness :
    "scheduled" ∈ valid_statuses ∧
    (∃ a ∈ st_one.appointments, a.id = "a1") ∧
    ∃ r : AppointmentRec,
      (update_appointment_status "a1" "scheduled" st_one).1 = .ok r ∧
      r.status = "scheduled" ∧ r.id = "a1" ∧
      ∀ a ∈ (update_appointment_status "a1" "scheduled" st_one).2.appointments,
        a.id = "a1" → a.status = "scheduled" :=
  ⟨by decide, by decide,
    C5_valid_status_update_succeeds "a1" "scheduled" st_one (by decide) (by decide)⟩

/-- Claim C6: contrary to the claim, a valid status together with an id
matching no stored appointment does NOT surface as HTTP 404: the
`HTTPException(404, "Appointment not found")` is raised inside the `try`
block and the `except Exception` clause converts it into HTTP 500.  This
theorem records the actual behavior at a failing input. -/
theorem C6_missing_appointment_yields_500 :
    update_appointment_status "absent-appointment" "confirmed" st0
      = (.err 500 "404: Appointment not found", st0) := by decide

/-- Claim C7: creation performs no validation of the status field: the
parse step defaults an omitted status to "scheduled", and any
caller-supplied status string is persisted verbatim on the created
appointment. -/
theorem C7_status_not_validated_on_create :
    (∀ b : AppointmentCreateBody,
      (parse_appointment_create b).status = b.status.getD "scheduled") ∧
    (∀ (appointment : AppointmentCreate) (business_id : String) (st : Store),
      (∃ s ∈ st.services, s.id = appointment.service_id) →
      (∃ c ∈ st.clients, c.id = appointment.client_id) →
      (∀ sid, appointment.staff_id = some sid → ∃ w ∈ st.staff, w.id = sid) →
      ∃ r : AppointmentRec,
        (create_appointment appointment business_id st).1 = .ok r ∧
        r.status = appointment.status ∧
        r ∈ (create_appointment appointment business_id st).2.appointments) := by
  refine ⟨fun b => rfl, fun appointment business_id st hs hc hw => ?_⟩
  rw [create_appointment_of_existing_refs appointment business_id st hs hc hw]
  exact ⟨_, rfl, rfl, by simp [insert_appointment_with_reminder]⟩

/-- Witness for C7: a status value outside the enumerated set is
persisted verbatim by a successful create. -/
theorem C7_status_not_validated_on_create_witness :
    "own-made-up-status" ∉ valid_statuses ∧
    ∃ r : AppointmentRec,
      (create_appointment a_odd_status "b0" st0).1 = .ok r ∧
      r.status = a_odd_status.status ∧
      r ∈ (create_appointment a_odd_status "b0" st0).2.appointments :=
  ⟨by decide,
    C7_status_not_validated_on_create.2 a_odd_status "b0" st0 (by decide) (by decide)
      (fun sid h => Option.noConfusion h)⟩

/-- Claim C8: the requirement start_time < end_time is not enforced: with
all references resolving, creation succeeds even when end_time is less
than or equal to start_time, and the appointment is persisted with those
times. -/
theorem C8_time_order_not_enforced
    (appointment : AppointmentCreate) (business_id : String) (st : Store)
    (hs : ∃ s ∈ st.services, s.id = appointment.service_id)
    (hc : ∃ c ∈ st.clients, c.id = appointment.client_id)
    (hw : ∀ sid, appointment.staff_id = some sid → ∃ w ∈ st.staff, w.id = sid)
    (_ht : appointment.end_time ≤ appointment.start_time) :
    ∃ r : AppointmentRec,
      (create_appointment appointment business_id st).1 = .ok r ∧
      r.start_time = appointment.start_time ∧
      r.end_time = appointment.end_time ∧
      r ∈ (create_appointment appointment business_id st).2.appointments := by
  rw [create_appointment_of_existing_refs appointment business_id st hs hc hw]
  exact ⟨_, rfl, rfl, rfl, by simp [insert_appointment_with_reminder]⟩

/-- Witness for C8: an appointment whose end_time precedes its start_time
is accepted and stored. -/
theorem C8_time_order_not_enforced_witness :
    a_backwards.end_time ≤ a_backwards.start_time ∧
    ∃ r : AppointmentRec,
      (create_appointment a_backwards "b0" st0).1 = .ok r ∧
      r.start_time = a_backwards.start_time ∧
      r.end_time = a_backwards.end_time ∧
      r ∈ (create_appointment a_backwards "b0" st0).2.appointments :=
  ⟨by decide,
    C8_time_order_not_enforced a_backwards "b0" st0 (by decide) (by decide)
      (fun sid h => Option.noConfusion h) (by decide)⟩

/-- Claim C9: the existence validations filter by identifier only, never
by business_id: for one and the same store and input, any two caller
contexts yield the same success flag and the same error response, and in
particular rows owned by a different business pass validation (shown
concretely on `st_cross`, whose rows all belong to "another-business"
while the caller context is "b0"). -/
theorem C9_validation_ignores_business_context
    (appointment : AppointmentCreate) (b1 b2 : String) (st : Store) :
    ((create_appointment appointment b1 st).1.isOk
        = (create_appointment appointment b2 st).1.isOk ∧
      (create_appointment appointment b1 st).1.errParts
        = (create_appointment appointment b2 st).1.errParts) ∧
    (create_appointment a_ok "b0" st_cross).1.isOk = true := by
  refine ⟨?_, by decide⟩
  by_cases hs : (st.services.filter (fun s => s.id == appointment.service_id)).isEmpty = true
  · simp [create_appointment, hs]
  · simp only [Bool.not_eq_true] at hs
    by_cases hc : (st.clients.filter (fun c => c.id == appointment.client_id)).isEmpty = true
    · simp [create_appointment, hs, hc]
    · simp only [Bool.not_eq_true] at hc
      cases hsid : appointment.staff_id with
      | none =>
        simp [create_appointment, hs, hc, hsid,
          insert_appointment_with_reminder, HResult.isOk, HResult.errParts]
      | some sid =>
        by_cases he : sid = ""
        · simp [create_appointment, hs, hc, hsid, he,
            insert_appointment_with_reminder, HResult.isOk, HResult.errParts]
        · by_cases hwm : (st.staff.filter (fun s => s.id == sid)).isEmpty = true
          · simp [create_appointment, hs, hc, hsid, he, hwm]
          · simp only [Bool.not_eq_true] at hwm
            simp [create_appointment, hs, hc, hsid, he, hwm,
              insert_appointment_with_reminder, HResult.isOk, HResult.errParts]

/-- Claim C10: for a valid status, `update_appointment_status` changes
nothing but the status field of rows matching the target id: services,
clients, staff, reminders and the id counter are untouched, the
appointments list keeps its length, every row keeps its id, business_id,
service_id, client_id, staff_id, start_time, end_time and notes, and rows
whose id differs from the target also keep their status. -/
theorem C10_update_modifies_only_status
    (appointment_id s : String) (st : Store)
    (hv : s ∈ valid_statuses)
    (_hex : ∃ a ∈ st.appointments, a.id = appointment_id) :
    (update_appointment_status appointment_id s st).2.services = st.services ∧
    (update_appointment_status appointment_id s st).2.clients = st.clients ∧
    (update_appointment_status appointment_id s st).2.staff = st.staff ∧
    (update_appointment_status appointment_id s st).2.appointment_reminders
      = st.appointment_reminders ∧
    (update_appointment_status appointment_id s st).2.next_id = st.next_id ∧
    (update_appointment_status appointment_id s st).2.appointments.length
      = st.appointments.length ∧
    ∀ (i : Nat) (h1 : i < st.appointments.length)
      (h2 : i < (update_appointment_status appointment_id s st).2.appointments.length),
      ((update_appointment_status appointment_id s st).2.appointments.get ⟨i, h2⟩).id
        = (st.appointments.get ⟨i, h1⟩).id ∧
      ((update_appointment_status appointment_id s st).2.appointments.get ⟨i, h2⟩).business_id
        = (st.appointments.get ⟨i, h1⟩).business_id ∧
      ((update_appointment_status appointment_id s st).2.appointments.get ⟨i, h2⟩).service_id
        = (st.appointments.get ⟨i, h1⟩).service_id ∧
      ((update_appointment_status appointment_id s st).2.appointments.get ⟨i, h2⟩).client_id
        = (st.appointments.get ⟨i, h1⟩).client_id ∧
      ((update_appointment_status appointment_id s st).2.appointments.get ⟨i, h2⟩).staff_id
        = (st.appointments.get ⟨i, h1⟩).staff_id ∧
      ((update_appointment_status appointment_id s st).2.appointments.get ⟨i, h2⟩).start_time
        = (st.appointments.get ⟨i, h1⟩).start_time ∧
      ((update_appointment_status appointment_id s st).2.appointments.get ⟨i, h2⟩).end_time
        = (st.appointments.get ⟨i, h1⟩).end_time ∧
      ((update_appointment_status appointment_id s st).2.appointments.get ⟨i, h2⟩).notes
        = (st.appointments.get ⟨i, h1⟩).notes ∧
      ((st.appointments.get ⟨i, h1⟩).id ≠ appointment_id →
        ((update_appointment_status appointment_id s st).2.appointments.get ⟨i, h2⟩).status
          = (st.appointments.get ⟨i, h1⟩).status) := by
  have hsnd := update_snd_of_valid appointment_id s st hv
  rw [hsnd]
  refine ⟨rfl, rfl, rfl, rfl, rfl, by simp, ?_⟩
  intro i h1 h2
  have hget : ((st.appointments.map
      (fun a => if a.id == appointment_id then { a with status := s } else a)).get
        ⟨i, by simpa using h2⟩)
      = (fun a => if a.id == appointment_id then { a with status := s } else a)
          (st.appointments.get ⟨i, h1⟩) := by
    simp [List.get_eq_getElem, List.getElem_map]
  rw [hget]
  by_cases h : (st.appointments.get ⟨i, h1⟩).id = appointment_id
  all_goals simp only [List.get_eq_getElem] at h
  · simp [h]
  · simp [h]

/-- Witness for C10: the frame property at the concrete store `st_one`. -/
theorem C10_update_modifies_only_status_witness :
    "confirmed" ∈ valid_statuses ∧
    (∃ a ∈ st_one.appointments, a.id = "a1") ∧
    ((update_appointment_status "a1" "confirmed" st_one).2.services = st_one.services ∧
    (update_appointment_status "a1" "confirmed" st_one).2.clients = st_one.clients ∧
    (update_appointment_status "a1" "confirmed" st_one).2.staff = st_one.staff ∧
    (update_appointment_status "a1" "confirmed" st_one).2.appointment_reminders
      = st_one.appointment_reminders ∧
    (update_appointment_status "a1" "confirmed" st_one).2.next_id = st_one.next_id ∧
    (update_appointment_status "a1" "confirmed" st_one).2.appointments.length
      = st_one.appointments.length ∧
    ∀ (i : Nat) (h1 : i < st_one.appointments.length)
      (h2 : i < (update_appointment_status "a1" "confirmed" st_one).2.appointments.length),
      ((update_appointment_status "a1" "confirmed" st_one).2.appointments.get ⟨i, h2⟩).id
        = (st_one.appointments.get ⟨i, h1⟩).id ∧
      ((update_appointment_status "a1" "confirmed" st_one).2.appointments.get ⟨i, h2⟩).business_id
        = (st_one.appointments.get ⟨i, h1⟩).business_id ∧
      ((update_appointment_status "a1" "confirmed" st_one).2.appointments.get ⟨i, h2⟩).service_id
        = (st_one.appointments.get ⟨i, h1⟩).service_id ∧
      ((update_appointment_status "a1" "confirmed" st_one).2.appointments.get ⟨i, h2⟩).client_id
        = (st_one.appointments.get ⟨i, h1⟩).client_id ∧
      ((update_appointment_status "a1" "confirmed" st_one).2.appointments.get ⟨i, h2⟩).staff_id
        = (st_one.appointments.get ⟨i, h1⟩).staff_id ∧
      ((update_appointment_status "a1" "confirmed" st_one).2.appointments.get ⟨i, h2⟩).start_time
        = (st_one.appointments.get ⟨i, h1⟩).start_time ∧
      ((update_appointment_status "a1" "confirmed" st_one).2.appointments.get ⟨i, h2⟩).end_time
        = (st_one.appointments.get ⟨i, h1⟩).end_time ∧
      ((update_appointment_status "a1" "confirmed" st_one).2.appointments.get ⟨i, h2⟩).notes
        = (st_one.appointments.get ⟨i, h1⟩).notes ∧
      ((st_one.appointments.get ⟨i, h1⟩).id ≠ "a1" →
        ((update_appointment_status "a1" "confirmed" st_one).2.appointments.get ⟨i, h2⟩).status
          = (st_one.appointments.get ⟨i, h1⟩).status)) :=
  ⟨by decide, by decide,
    C10_update_modifies_only_status "a1" "confirmed" st_one (by decide) (by decide)⟩

end AppointmentScheduler
